import Mathlib

/-!
Verification of the candidate-disambiguation core of `spotify-image-search`
(`src/main.rs`) against its natural-language specification.

The Rust source is shallowly embedded: pure functions become Lean functions,
fallible or panicking code returns `Option` / `Except`, and the two I/O
orchestration modes of `main` become step functions over explicit
environment records. A Rust panic (index out of bounds, `expect`, integer
division by zero) is modelled as `none` / `RunErr.panic`; an `anyhow` error
propagated with `?` is modelled as `RunErr.err msg`.
-/

namespace SpotifyImageSearch

/-! ## StringDistance: the `edit_distance` crate

`edit_distance::edit_distance` is the classic Levenshtein edit distance over
Unicode scalar sequences, unit cost for insert/delete/substitute. The fuel
argument makes the recursion structural; `edit_distance` always supplies
enough fuel (`|a| + |b|`), so the fuel-exhausted arm is unreachable. -/

def levenshteinAux : Nat → List Char → List Char → Nat
  | _, [], ys => ys.length
  | _, x :: xs, [] => (x :: xs).length
  | 0, _ :: _, _ :: _ => 0
  | fuel + 1, x :: xs, y :: ys =>
    if x = y then levenshteinAux fuel xs ys
    else 1 + min (levenshteinAux fuel xs ys)
            (min (levenshteinAux fuel (x :: xs) ys) (levenshteinAux fuel xs (y :: ys)))

def edit_distance (a b : String) : Nat :=
  levenshteinAux (a.length + b.length) a.toList b.toList

/-! ## ArtistSetDistance: `calculate_average_artist_names_distance`

The Rust function takes the two artist lists `a` (the locally tagged
artists) and `b` (the artists of a found track). It picks
`(larger, smaller)` by comparing lengths (`a` is `larger` only when strictly
longer), sums over `smaller` the minimum edit distance to any element of
`larger`, and divides by `num_found_artists = b.len()`.

Panics of the original are modelled as `none`:
* the `expect` on `min_distance` (fires only when `larger` is empty while
  `smaller` is not, which is impossible since `larger` has maximal length);
* `total_distance / num_found_artists` when `b` is empty (integer division
  by zero panics in Rust). -/

def minDistanceTo (outer_artist_name : String) (larger : List String) : Option Nat :=
  larger.foldl
    (fun min_distance inner_artist_name =>
      let d := edit_distance outer_artist_name inner_artist_name
      match min_distance with
      | some m => some (min m d)
      | none => some d)
    none

def sumMinDistances : List String → List String → Option Nat
  | [], _ => some 0
  | outer :: rest, larger =>
    match minDistanceTo outer larger, sumMinDistances rest larger with
    | some d, some tot => some (d + tot)
    | _, _ => none

def calculate_average_artist_names_distance (a b : List String) : Option Nat :=
  let num_found_artists := b.length
  let larger := if a.length > b.length then a else b
  let smaller := if a.length > b.length then b else a
  match sumMinDistances smaller larger with
  | none => none
  | some total_distance =>
    if num_found_artists = 0 then none
    else some (total_distance / num_found_artists)

/-! ## Spec-worded ArtistSetDistance (for refinement comparison)

`artistSetDistanceSpec` follows the words of spec section 4.2: `small` is the
shorter list, `large` the longer (on ties, the second list is `large`,
matching the tie rule the code applies); for every name in `small` take the
minimum StringDistance to any name in `large`; sum; divide by
`large.length` with integer division. -/

def specMinDist (s : String) (l : List String) : Nat :=
  match l with
  | [] => 0
  | y :: ys => ys.foldl (fun m x => min m (edit_distance s x)) (edit_distance s y)

def artistSetDistanceSpec (a b : List String) : Nat :=
  let large := if a.length > b.length then a else b
  let small := if a.length > b.length then b else a
  ((small.map (fun s => specMinDist s large)).sum) / large.length

/-! ## Errors

`RunErr.panic` models a Rust panic (out-of-bounds indexing, `expect`,
division by zero); `RunErr.err msg` models an `anyhow` error value
propagated with `?`. -/

inductive RunErr where
  | panic
  | err (msg : String)
deriving DecidableEq

/-! ## Candidate model and `get_image_url_for_track`

A search-result item is an untrusted JSON object. Fields that
`get_image_url_for_track` reads are modelled with `Option`: `none` means the
field is missing or has the wrong JSON type (so `as_str()` / `as_array()`
returns `None` there).

* `name` — `found_track["name"].as_str()`;
* `artists` — `found_track["artists"].as_array()`, each element being
  `artist["name"].as_str()`;
* `album_name` — `found_track["album"]["name"]` (`as_str` in scoring, raw
  JSON equality in the album tie-break, where a missing/non-string field
  simply compares unequal to the local album string);
* `album_images` — `track["album"]["images"].as_array()`, each element being
  `image["url"].as_str()`. -/

structure RawTrack where
  name : Option String
  artists : Option (List (Option String))
  album_name : Option String
  album_images : Option (List (Option String))
deriving DecidableEq, Inhabited

/-- The artist-name collection inside the sort key: each
`artist["name"].as_str().expect(..)` panics (`none`) on a non-string name. -/
def collectNames : List (Option String) → Option (List String)
  | [] => some []
  | some n :: rest => (collectNames rest).map (fun ns => n :: ns)
  | none :: _ => none

/-- The sort key computed by `tracks.sort_by_key(..)` for one found track:
title distance + average artist distance + album distance. `none` models the
panics inside the closure (`expect` on a missing/non-string field, and the
panics of `calculate_average_artist_names_distance`). -/
def scoreTrack (track_name : String) (artist_names : List String) (album_name : String)
    (t : RawTrack) : Option Nat :=
  match t.name, t.artists, t.album_name with
  | some found_track_name, some artists_arr, some found_track_album_name =>
    match collectNames artists_arr with
    | none => none
    | some found_track_artist_names =>
      match calculate_average_artist_names_distance artist_names found_track_artist_names with
      | none => none
      | some artist_name_distance =>
        some (edit_distance track_name found_track_name + artist_name_distance
          + edit_distance album_name found_track_album_name)
  | _, _, _ => none

/-- Evaluate the sort key for every track. Rust `sort_by_key` evaluates the
key of every element whenever the vector has at least two elements, so a
single panicking key makes the whole sort panic; `scoreAll` returns `none`
in that case. -/
def scoreAll (track_name : String) (artist_names : List String) (album_name : String) :
    List RawTrack → Option (List (Nat × RawTrack))
  | [] => some []
  | t :: ts =>
    match scoreTrack track_name artist_names album_name t,
        scoreAll track_name artist_names album_name ts with
    | some s, some rest => some ((s, t) :: rest)
    | _, _ => none

/-- Stable insertion: an element goes before every element with a key that is
not smaller, so equal keys keep their original relative order — the same
permutation Rust's stable `sort_by_key` produces. -/
def insertScored (p : Nat × RawTrack) : List (Nat × RawTrack) → List (Nat × RawTrack)
  | [] => [p]
  | q :: rest => if q.1 < p.1 then q :: insertScored p rest else p :: q :: rest

def sortScored : List (Nat × RawTrack) → List (Nat × RawTrack)
  | [] => []
  | p :: rest => insertScored p (sortScored rest)

/-- `tracks.sort_by_key(..)` as a whole: with zero or one element no key is
evaluated and the vector is unchanged; otherwise every key is evaluated
(`none` on a key panic) and the vector is stably sorted ascending by key. -/
def sortTracksByScore (track_name : String) (artist_names : List String)
    (album_name : String) (tracks : List RawTrack) : Option (List RawTrack) :=
  if tracks.length ≤ 1 then some tracks
  else
    match scoreAll track_name artist_names album_name tracks with
    | none => none
    | some keyed => some ((sortScored keyed).map (fun p => p.2))

/-- The selection after sorting (`let track = if tracks.len() <= 1 ..`):
with at most one element, `&tracks[0]` — a panic (`none`) when the vector is
empty; with two or more, the first track whose `album.name` JSON value
equals the local album string, falling back to the sorted head. -/
def chooseTrack (album_name : String) (tracks : List RawTrack) : Option RawTrack :=
  if tracks.length ≤ 1 then tracks[0]?
  else
    match tracks.find? (fun t => decide (t.album_name = some album_name)) with
    | some track => some track
    | none => tracks[0]?

/-- Reading the winning track's artwork:
`track["album"]["images"].as_array().ok_or(..)?` yields `images` as a
`&Vec<Value>`; a missing or non-array images field is a typed `anyhow`
error. `images[0]` then uses std `Vec` indexing, which panics when the
array is empty. On a non-empty array, `images[0]["url"].as_str().ok_or(..)?`
turns a missing or non-string url on the first image into a typed error. -/
def firstImageUrl (track : RawTrack) : Except RunErr String :=
  match track.album_images with
  | none => Except.error (RunErr.err "Invalid images array")
  | some [] => Except.error RunErr.panic
  | some (some url :: _) => Except.ok url
  | some (none :: _) => Except.error (RunErr.err "Invalid image url")

/-- `get_image_url_for_track` after the HTTP search: `items` is
`res["tracks"]["items"].as_array()` (`none` when the response carries no
such array, a typed error). Sorting and selection may panic as modelled
above; otherwise the winner's first artwork url is extracted. -/
def get_image_url_for_track (track_name : String) (artist_names : List String)
    (album_name : String) (items : Option (List RawTrack)) : Except RunErr String :=
  match items with
  | none => Except.error (RunErr.err "Results should be an array")
  | some tracks =>
    match sortTracksByScore track_name artist_names album_name tracks with
    | none => Except.error RunErr.panic
    | some sorted =>
      match chooseTrack album_name sorted with
      | none => Except.error RunErr.panic
      | some track => firstImageUrl track

/-! ## `get_image_url_from_filename`: the artist-tag split

`tag.artist()` yields one string that the code splits on the literal
separator `", "`: `tag.artist().ok_or(..)?.split(", ").collect()`.
`splitArtists` is Rust `str::split` with the two-character pattern `", "`:
scan left to right, cut at each non-overlapping occurrence. Like the Rust
original, it yields the (possibly empty) piece accumulated so far even when
the input is exhausted, so the result is never the empty list. -/

def splitArtists : List Char → List Char → List (List Char)
  | acc, [] => [acc.reverse]
  | acc, ',' :: ' ' :: rest => acc.reverse :: splitArtists [] rest
  | acc, c :: rest => splitArtists (c :: acc) rest

def artistNamesOf (artist : String) : List String :=
  (splitArtists [] artist.toList).map (fun cs => String.mk cs)

/-- `search` uses only the first artist for the outbound query:
`artist = artist_names[0]`. Indexing an empty vector would panic, modelled
by `none`. -/
def searchQueryArtist (artist_names : List String) : Option String :=
  artist_names[0]?

/-! ## FileWalkOrchestrator: the two modes of `main`

The filesystem and network are abstracted into per-entry environment
records; the control flow of `main` is translated literally.

In single-file mode every stage is behind `?`, so the first failure is the
result of the run (`main` returns `Err`, a non-zero exit). The output file
is opened with `File::create` when `force` is set (truncate-or-create) and
with `File::create_new` otherwise, which fails when the path exists.
`runSingleFile` returns `Except.ok ()` exactly when the artwork was written
to the output path. -/

structure SingleEnv where
  output_exists : Bool
  pipeline : Except RunErr String
  download_ok : Bool
  write_ok : Bool

def runSingleFile (force : Bool) (e : SingleEnv) : Except RunErr Unit :=
  match e.pipeline with
  | Except.error er => Except.error er
  | Except.ok _image_url =>
    if !e.download_ok then Except.error (RunErr.err "download error")
    else if !force && e.output_exists then Except.error (RunErr.err "File exists")
    else if !e.write_ok then Except.error (RunErr.err "write error")
    else Except.ok ()

/-- One entry of the recursive walk. `pipeline` is the result of
`get_image_url_from_filename` (tag read, search, selection); the three
booleans are the stages guarded by `?` inside the `Ok` arm
(`reqwest::get(..)?.bytes()?`, `File::create(..)?`, `write_all(..)?`). -/
structure Entry where
  is_dir : Bool
  output_exists : Bool
  pipeline : Except RunErr String
  download_ok : Bool
  create_ok : Bool
  write_ok : Bool

inductive EntryOutcome where
  | skipped_existing
  | skipped_dir
  | skipped_failed
  | written (url : String)
deriving DecidableEq

def consOutcome (o : EntryOutcome) : Except RunErr (List EntryOutcome) →
    Except RunErr (List EntryOutcome)
  | Except.ok outs => Except.ok (o :: outs)
  | Except.error er => Except.error er

/-- The recursive-mode loop of `main`, one iteration per walk entry, in
source order: the output-existence skip (`if !args.force { if
image_file_path.exists() { continue } }`) comes first, then the directory
test, then the pipeline whose `Err` arm is `continue` and whose `Ok` arm
runs download/create/write behind `?` — so an error there is returned from
`main`, aborting the walk before any later entry is visited. -/
def runWalk (force : Bool) : List Entry → Except RunErr (List EntryOutcome)
  | [] => Except.ok []
  | e :: rest =>
    if !force && e.output_exists then
      consOutcome EntryOutcome.skipped_existing (runWalk force rest)
    else if e.is_dir then
      consOutcome EntryOutcome.skipped_dir (runWalk force rest)
    else
      match e.pipeline with
      | Except.error _ => consOutcome EntryOutcome.skipped_failed (runWalk force rest)
      | Except.ok url =>
        if !e.download_ok then Except.error (RunErr.err "download error")
        else if !e.create_ok then Except.error (RunErr.err "create error")
        else if !e.write_ok then Except.error (RunErr.err "write error")
        else consOutcome (EntryOutcome.written url) (runWalk force rest)

/-! ## Concrete fixtures used by witnesses and counterexamples -/

def goodTrack : RawTrack :=
  { name := some "T", artists := some [some "A"], album_name := some "B",
    album_images := some [some "good.jpg"] }

/-- A malformed candidate: its `artists` array is present but empty, so the
average artist distance divides by zero. -/
def zeroArtistTrack : RawTrack :=
  { name := some "T", artists := some [], album_name := some "B",
    album_images := some [some "bad.jpg"] }

/-- A malformed candidate with a well-formed sort key but an empty `images`
array, on which `images[0]` panics when the candidate wins. -/
def emptyImagesTrack : RawTrack :=
  { name := some "T", artists := some [some "A"], album_name := some "B",
    album_images := some [] }

/-- Candidate X of the spec example: near title/artists, album
`"Abbey Road (Remastered)"`, score 13 against the local descriptor
`("T", ["A"], "Abbey Road")`. -/
def trackX : RawTrack :=
  { name := some "T", artists := some [some "A"],
    album_name := some "Abbey Road (Remastered)",
    album_images := some [some "x.jpg"] }

/-- Candidate Y of the spec example: worse score (16) but an exact album
match `"Abbey Road"`. -/
def trackY : RawTrack :=
  { name := some "YYYYYYYYYYYYYYYY", artists := some [some "A"],
    album_name := some "Abbey Road",
    album_images := some [some "y.jpg"] }

def okEntry : Entry :=
  { is_dir := false, output_exists := false, pipeline := Except.ok "u",
    download_ok := true, create_ok := true, write_ok := true }

def tagFailEntry : Entry :=
  { is_dir := false, output_exists := false,
    pipeline := Except.error (RunErr.err "Invalid song title"),
    download_ok := true, create_ok := true, write_ok := true }

def downloadFailEntry : Entry :=
  { is_dir := false, output_exists := false, pipeline := Except.ok "u",
    download_ok := false, create_ok := true, write_ok := true }

def existingOutputEntry : Entry :=
  { is_dir := false, output_exists := true, pipeline := Except.ok "u",
    download_ok := true, create_ok := true, write_ok := true }

/-! ## Helper lemmas -/

theorem foldl_min_some (s : String) (ys : List String) (m : Nat) :
    ys.foldl
      (fun min_distance inner_artist_name =>
        let d := edit_distance s inner_artist_name
        match min_distance with
        | some mm => some (min mm d)
        | none => some d)
      (some m)
    = some (ys.foldl (fun mm x => min mm (edit_distance s x)) m) := by
  induction ys generalizing m with
  | nil => rfl
  | cons y ys ih => simpa only [List.foldl_cons] using ih (min m (edit_distance s y))

theorem minDistanceTo_eq (s y : String) (ys : List String) :
    minDistanceTo s (y :: ys) = some (specMinDist s (y :: ys)) := by
  unfold minDistanceTo specMinDist
  simpa only [List.foldl_cons] using foldl_min_some s ys (edit_distance s y)

theorem sumMinDistances_eq (a b : List String) (hb : b ≠ []) :
    sumMinDistances a b = some ((a.map (fun s => specMinDist s b)).sum) := by
  obtain ⟨y, ys, rfl⟩ := List.exists_cons_of_ne_nil hb
  induction a with
  | nil => rfl
  | cons x rest ih =>
    simp only [sumMinDistances, minDistanceTo_eq, ih, List.map_cons, List.sum_cons]

theorem scoreAll_none (track_name : String) (artist_names : List String) (album_name : String)
    {tracks : List RawTrack} {t : RawTrack} (hmem : t ∈ tracks)
    (hbad : scoreTrack track_name artist_names album_name t = none) :
    scoreAll track_name artist_names album_name tracks = none := by
  induction tracks with
  | nil => cases hmem
  | cons x rest ih =>
    rcases List.mem_cons.mp hmem with rfl | hmem2
    · simp only [scoreAll, hbad]
    · simp only [scoreAll, ih hmem2]
      cases scoreTrack track_name artist_names album_name x <;> rfl

theorem scoreAll_length (track_name : String) (artist_names : List String)
    (album_name : String) :
    ∀ (tracks : List RawTrack) (keyed : List (Nat × RawTrack)),
      scoreAll track_name artist_names album_name tracks = some keyed →
      keyed.length = tracks.length := by
  intro tracks
  induction tracks with
  | nil =>
    intro keyed h
    simp only [scoreAll] at h
    injection h with h
    subst h
    rfl
  | cons x rest ih =>
    intro keyed h
    simp only [scoreAll] at h
    split at h
    · next s rest2 _ hrest =>
      injection h with h
      subst h
      simp [ih rest2 hrest]
    · cases h

theorem insertScored_length (p : Nat × RawTrack) (l : List (Nat × RawTrack)) :
    (insertScored p l).length = l.length + 1 := by
  induction l with
  | nil => rfl
  | cons q rest ih =>
    simp only [insertScored]
    split <;> simp [ih]

theorem sortScored_length (l : List (Nat × RawTrack)) :
    (sortScored l).length = l.length := by
  induction l with
  | nil => rfl
  | cons p rest ih => simp [sortScored, insertScored_length, ih]

theorem sortTracksByScore_length {track_name : String} {artist_names : List String}
    {album_name : String} {tracks sorted : List RawTrack}
    (h : sortTracksByScore track_name artist_names album_name tracks = some sorted) :
    sorted.length = tracks.length := by
  unfold sortTracksByScore at h
  split at h
  · injection h with h
    subst h
    rfl
  · split at h
    · cases h
    · next keyed hk =>
      injection h with h
      subst h
      simp [sortScored_length, scoreAll_length _ _ _ _ _ hk]

theorem splitArtists_ne_nil_fuel (n : Nat) :
    ∀ (l : List Char), l.length ≤ n → ∀ (acc : List Char), splitArtists acc l ≠ [] := by
  induction n with
  | zero =>
    intro l hl acc
    have hnil : l = [] := List.length_eq_zero.mp (Nat.le_zero.mp hl)
    subst hnil
    simp [splitArtists]
  | succ n ih =>
    intro l hl acc
    rw [splitArtists.eq_def]
    split
    · simp
    · simp
    · next c rest _ =>
      have : rest.length ≤ n := by
        simp only [List.length_cons] at hl
        omega
      exact ih rest this (c :: acc)

theorem splitArtists_ne_nil (acc l : List Char) : splitArtists acc l ≠ [] :=
  splitArtists_ne_nil_fuel l.length l (Nat.le_refl _) acc

theorem walk_all_existing :
    ∀ (entries : List Entry), (∀ x ∈ entries, x.output_exists = true) →
      runWalk false entries
        = Except.ok (entries.map fun _ => EntryOutcome.skipped_existing) := by
  intro entries
  induction entries with
  | nil => intro _; rfl
  | cons x xs ih =>
    intro hall
    have hx : x.output_exists = true := hall x (List.mem_cons_self x xs)
    have ih2 := ih (fun y hy => hall y (List.mem_cons_of_mem x hy))
    simp [runWalk, hx, ih2, consOutcome]

/-! ## Claim theorems -/

/-- C1: the claim says an empty candidate list makes selection fail with a
typed `NoCandidates` failure and never panic. The code instead falls into
the `tracks.len() <= 1` branch and evaluates `&tracks[0]` on the empty
vector: with an empty `tracks.items` array the selection panics. This
theorem evaluates the embedded pipeline at that failing input. -/
theorem C1_empty_candidate_list_panics :
    get_image_url_for_track "Song" ["Artist"] "Album" (some [])
      = Except.error RunErr.panic := rfl

/-- C2 counterexample: a failure in the download stage of one entry is not
isolated — the walk aborts with that error, and the following entry, which
on its own would be processed and written, is never reached. -/
theorem C2_download_failure_aborts_walk :
    runWalk false [downloadFailEntry, okEntry]
        = Except.error (RunErr.err "download error") ∧
    runWalk false [okEntry] = Except.ok [EntryOutcome.written "u"] :=
  ⟨rfl, rfl⟩

/-- C2 (amended): only a failure of `get_image_url_from_filename` (tag read,
search, candidate selection) is isolated — the entry is skipped silently and
the walk continues with the remaining entries; failures in download,
output-file creation, or write abort the whole walk. -/
theorem C2_tag_search_failure_isolated (force : Bool) (e : Entry) (rest : List Entry)
    (er : RunErr) (h1 : (!force && e.output_exists) = false) (h2 : e.is_dir = false)
    (h3 : e.pipeline = Except.error er) :
    runWalk force (e :: rest)
      = consOutcome EntryOutcome.skipped_failed (runWalk force rest) := by
  simp [runWalk, h1, h2, h3]

/-- Witness for C2: a concrete walk where the first entry fails at the tag
stage and the second entry is still processed and written. -/
theorem C2_tag_search_failure_isolated_witness :
    runWalk false [tagFailEntry, okEntry]
        = consOutcome EntryOutcome.skipped_failed (runWalk false [okEntry]) ∧
    runWalk false [tagFailEntry, okEntry]
        = Except.ok [EntryOutcome.skipped_failed, EntryOutcome.written "u"] :=
  ⟨C2_tag_search_failure_isolated false tagFailEntry [okEntry]
      (RunErr.err "Invalid song title") rfl rfl rfl, rfl⟩

/-- C3 counterexample: with a first list strictly longer than the second,
the code divides the sum of minima (2) by the length of the second, shorter
list (1), whereas the claim divides by the length of the longer list (2). -/
theorem C3_longer_first_list_counterexample :
    calculate_average_artist_names_distance ["AB", "CD"] ["X"] = some 2 ∧
    artistSetDistanceSpec ["AB", "CD"] ["X"] = 1 ∧
    calculate_average_artist_names_distance ["AB", "CD"] ["X"]
      ≠ some (artistSetDistanceSpec ["AB", "CD"] ["X"]) := by
  decide

/-- C3 (amended): the sum of minima over the shorter list is divided by the
length of the second list `b` (the found-track artists), not by the length
of the longer list; the two agree exactly when the first list is not longer
than the second, which is the case proved here. -/
theorem C3_average_matches_spec_when_first_not_longer (a b : List String)
    (hb : b ≠ []) (hle : a.length ≤ b.length) :
    calculate_average_artist_names_distance a b = some (artistSetDistanceSpec a b) := by
  have hgt : ¬(a.length > b.length) := by omega
  have hb0 : ¬(b.length = 0) := by
    cases b with
    | nil => exact absurd rfl hb
    | cons y ys => simp
  simp only [calculate_average_artist_names_distance, artistSetDistanceSpec, if_neg hgt]
  rw [sumMinDistances_eq a b hb]
  simp [hb0]

/-- Witness for C3 (amended) at a concrete pair of lists. -/
theorem C3_average_matches_spec_witness :
    (["A"] : List String).length ≤ (["A", "B"] : List String).length ∧
    calculate_average_artist_names_distance ["A"] ["A", "B"]
      = some (artistSetDistanceSpec ["A"] ["A", "B"]) :=
  ⟨by decide, C3_average_matches_spec_when_first_not_longer ["A"] ["A", "B"]
      (by decide) (by decide)⟩

/-- C4: with at least two candidates, the winner is the first candidate of
the score-sorted sequence whose album is an exact (case-sensitive,
untrimmed) string match to the local album, and the head of the sorted
sequence when no album matches exactly; the pipeline then returns the
winner's first artwork url. -/
theorem C4_album_exact_match_overrides_score (track_name : String)
    (artist_names : List String) (album_name : String)
    (tracks sorted : List RawTrack) (w : RawTrack)
    (hlen : 2 ≤ tracks.length)
    (hsort : sortTracksByScore track_name artist_names album_name tracks = some sorted)
    (hw : w = ((sorted.find? (fun t => decide (t.album_name = some album_name))).getD
        sorted.headI)) :
    get_image_url_for_track track_name artist_names album_name (some tracks)
      = firstImageUrl w := by
  have hl : sorted.length = tracks.length := sortTracksByScore_length hsort
  have h2 : 2 ≤ sorted.length := by omega
  have hnil : sorted ≠ [] := by
    cases sorted with
    | nil => simp at h2
    | cons x xs => simp
  have hchoose : chooseTrack album_name sorted = some w := by
    unfold chooseTrack
    rw [if_neg (by omega)]
    cases hf : sorted.find? (fun t => decide (t.album_name = some album_name)) with
    | some track =>
      subst hw
      rw [hf]
      rfl
    | none =>
      subst hw
      rw [hf]
      obtain ⟨x, xs, rfl⟩ := List.exists_cons_of_ne_nil hnil
      simp [List.headI]
  simp only [get_image_url_for_track, hsort, hchoose]

/-- Witness for C4: the example of the spec — local album `"Abbey Road"`,
candidate X scores 13 with album `"Abbey Road (Remastered)"`, candidate Y
scores 16 with album `"Abbey Road"`; X sorts first by score but Y wins on
the exact album match and its artwork is returned. -/
theorem C4_album_exact_match_overrides_score_witness :
    get_image_url_for_track "T" ["A"] "Abbey Road" (some [trackY, trackX])
        = firstImageUrl trackY ∧
    firstImageUrl trackY = Except.ok "y.jpg" :=
  ⟨C4_album_exact_match_overrides_score "T" ["A"] "Abbey Road" [trackY, trackX]
      [trackX, trackY] trackY (by decide) (by decide) (by decide), rfl⟩

/-- C5 counterexample: a malformed candidate (an empty artists array) next
to a well-formed one is not dropped: score computation divides by zero and
the whole selection panics. -/
theorem C5_malformed_candidate_panic_example :
    get_image_url_for_track "T" ["A"] "B" (some [goodTrack, zeroArtistTrack])
      = Except.error RunErr.panic := rfl

/-- C5 (amended): malformed candidates are not filtered out. Whenever the
item list has at least two entries, any candidate whose sort key computation
panics — missing/non-string title or album, missing/non-array artists, a
non-string artist name, or an empty artists array — makes the whole
selection step panic instead of being dropped silently. Artwork references
are checked only on the selected winner, and a winner lacking every artwork
reference (an empty `images` array) also crashes with a panic, via std
`Vec` indexing in `images[0]`; only a missing/non-array `images` field or a
non-string url on the first image is surfaced as a typed failure. -/
theorem C5_malformed_candidate_panics (track_name : String) (artist_names : List String)
    (album_name : String) (tracks : List RawTrack) (t : RawTrack)
    (hlen : 2 ≤ tracks.length) (hmem : t ∈ tracks)
    (hbad : scoreTrack track_name artist_names album_name t = none) :
    get_image_url_for_track track_name artist_names album_name (some tracks)
      = Except.error RunErr.panic ∧
    (∀ tr : RawTrack, tr.album_images = some [] →
      get_image_url_for_track track_name artist_names album_name (some [tr])
        = Except.error RunErr.panic) := by
  constructor
  · have hsa := scoreAll_none track_name artist_names album_name hmem hbad
    simp only [get_image_url_for_track, sortTracksByScore,
      if_neg (by omega : ¬tracks.length ≤ 1), hsa]
  · intro tr htr
    have h1 : get_image_url_for_track track_name artist_names album_name (some [tr])
        = firstImageUrl tr := rfl
    rw [h1]
    simp [firstImageUrl, htr]

/-- Witness for C5 (amended) at the concrete candidates: a zero-artist
candidate next to a well-formed one panics during scoring, and a lone
candidate with an empty artwork array panics at artwork extraction. -/
theorem C5_malformed_candidate_panics_witness :
    2 ≤ ([goodTrack, zeroArtistTrack] : List RawTrack).length ∧
    zeroArtistTrack ∈ [goodTrack, zeroArtistTrack] ∧
    scoreTrack "T" ["A"] "B" zeroArtistTrack = none ∧
    emptyImagesTrack.album_images = some [] ∧
    get_image_url_for_track "T" ["A"] "B" (some [goodTrack, zeroArtistTrack])
      = Except.error RunErr.panic ∧
    get_image_url_for_track "T" ["A"] "B" (some [emptyImagesTrack])
      = Except.error RunErr.panic :=
  ⟨by decide, by decide, rfl, rfl,
    (C5_malformed_candidate_panics "T" ["A"] "B" [goodTrack, zeroArtistTrack]
      zeroArtistTrack (by decide) (by decide) rfl).1,
    (C5_malformed_candidate_panics "T" ["A"] "B" [goodTrack, zeroArtistTrack]
      zeroArtistTrack (by decide) (by decide) rfl).2 emptyImagesTrack rfl⟩

/-- C6 counterexample: two non-empty lists of equal length on which swapping
the arguments changes the result, because the minima are summed over the
first list and the divisor is the second list. -/
theorem C6_symmetry_counterexample :
    calculate_average_artist_names_distance ["AAAA", "AAAA"] ["AAAA", "ZZZZ"] = some 0 ∧
    calculate_average_artist_names_distance ["AAAA", "ZZZZ"] ["AAAA", "AAAA"] = some 2 ∧
    calculate_average_artist_names_distance ["AAAA", "AAAA"] ["AAAA", "ZZZZ"]
      ≠ calculate_average_artist_names_distance ["AAAA", "ZZZZ"] ["AAAA", "AAAA"] := by
  decide

/-- C6 (amended): the function is not symmetric. When the first list is
strictly shorter, both argument orders sum the same minima S over the
shorter list, but the sum is divided by the length of whichever list is
passed second, so the two orders give `S / b.length` and `S / a.length`
respectively. -/
theorem C6_asymmetric_divisor (a b : List String) (ha : a ≠ [])
    (hlt : a.length < b.length) :
    ∃ S, sumMinDistances a b = some S ∧
      calculate_average_artist_names_distance a b = some (S / b.length) ∧
      calculate_average_artist_names_distance b a = some (S / a.length) := by
  have hb : b ≠ [] := by
    intro hbe
    subst hbe
    simp at hlt
  have hb0 : ¬(b.length = 0) := by
    cases b with
    | nil => exact absurd rfl hb
    | cons y ys => simp
  have ha0 : ¬(a.length = 0) := by
    cases a with
    | nil => exact absurd rfl ha
    | cons y ys => simp
  refine ⟨(a.map (fun s => specMinDist s b)).sum, sumMinDistances_eq a b hb, ?_, ?_⟩
  · have hgt : ¬(a.length > b.length) := by omega
    simp only [calculate_average_artist_names_distance, if_neg hgt]
    rw [sumMinDistances_eq a b hb]
    simp [hb0]
  · have hgt2 : b.length > a.length := hlt
    simp only [calculate_average_artist_names_distance, if_pos hgt2]
    rw [sumMinDistances_eq a b hb]
    simp [ha0]

/-- Witness for C6 (amended): S = 2, so the two argument orders give
2 / 2 = 1 and 2 / 1 = 2. -/
theorem C6_asymmetric_divisor_witness :
    (["X"] : List String) ≠ [] ∧
    (["X"] : List String).length < (["AB", "CD"] : List String).length ∧
    ∃ S, sumMinDistances ["X"] ["AB", "CD"] = some S ∧
      calculate_average_artist_names_distance ["X"] ["AB", "CD"] = some (S / 2) ∧
      calculate_average_artist_names_distance ["AB", "CD"] ["X"] = some (S / 1) :=
  ⟨by decide, by decide, C6_asymmetric_divisor ["X"] ["AB", "CD"] (by decide) (by decide)⟩

/-- C7: when the item list holds exactly one candidate, the pipeline returns
that candidate's first artwork url unconditionally — the sort evaluates no
key, no score threshold is applied and no tie-break runs, whatever the
fields of the candidate are. -/
theorem C7_single_candidate_returned_unconditionally (track_name : String)
    (artist_names : List String) (album_name : String) (t : RawTrack) :
    get_image_url_for_track track_name artist_names album_name (some [t])
      = firstImageUrl t := rfl

/-- C8: in single-file mode with `force` unset and an existing output path,
the run fails with an error (`main` returns `Err`, exiting non-zero) and the
output is never written — `runSingleFile` returns `Except.ok ()` exactly
when the write happened, and here it always returns an error, whichever
earlier stage succeeds or fails. -/
theorem C8_single_file_existing_output_fails (e : SingleEnv)
    (h : e.output_exists = true) :
    ∃ er, runSingleFile false e = Except.error er := by
  unfold runSingleFile
  cases hp : e.pipeline with
  | error er => exact ⟨er, rfl⟩
  | ok url =>
    cases hd : e.download_ok with
    | false => exact ⟨RunErr.err "download error", by simp [hd]⟩
    | true => exact ⟨RunErr.err "File exists", by simp [hd, h]⟩

/-- Witness for C8 at an environment where every other stage would succeed:
only the existing output makes the run fail. -/
theorem C8_single_file_existing_output_fails_witness :
    ({ output_exists := true, pipeline := Except.ok "u", download_ok := true,
        write_ok := true } : SingleEnv).output_exists = true ∧
    ∃ er, runSingleFile false
        { output_exists := true, pipeline := Except.ok "u", download_ok := true,
          write_ok := true } = Except.error er :=
  ⟨rfl, C8_single_file_existing_output_fails _ rfl⟩

/-- C9: with `force` unset, a walk entry whose output path exists is skipped
before any processing — the walk continues on the rest unchanged — and a
walk in which every output already exists (a second run over the same tree)
succeeds with no write and no error. -/
theorem C9_existing_output_skipped_idempotent (e : Entry) (rest entries : List Entry)
    (he : e.output_exists = true) :
    runWalk false (e :: rest)
        = consOutcome EntryOutcome.skipped_existing (runWalk false rest) ∧
    ((∀ x ∈ entries, x.output_exists = true) →
      runWalk false entries
        = Except.ok (entries.map fun _ => EntryOutcome.skipped_existing)) := by
  constructor
  · simp [runWalk, he]
  · exact walk_all_existing entries

/-- Witness for C9: one existing-output entry ahead of a normal entry is
skipped, and a two-entry walk where both outputs exist returns only skips. -/
theorem C9_existing_output_skipped_idempotent_witness :
    runWalk false [existingOutputEntry, okEntry]
        = consOutcome EntryOutcome.skipped_existing (runWalk false [okEntry]) ∧
    runWalk false [existingOutputEntry, existingOutputEntry]
        = Except.ok ([existingOutputEntry, existingOutputEntry].map
            fun _ => EntryOutcome.skipped_existing) := by
  have h := C9_existing_output_skipped_idempotent existingOutputEntry [okEntry]
    [existingOutputEntry, existingOutputEntry] rfl
  exact ⟨h.1, h.2 (by decide)⟩

/-- C10: splitting any artist tag string on the literal separator `", "`
always yields at least one (possibly empty) piece, so the artists list
handed to `search` is never empty and `artist_names[0]` never panics. -/
theorem C10_artist_split_never_empty (artist : String) :
    artistNamesOf artist ≠ [] ∧
    (searchQueryArtist (artistNamesOf artist)).isSome = true := by
  have h : artistNamesOf artist ≠ [] := by
    simpa [artistNamesOf, List.map_eq_nil_iff] using splitArtists_ne_nil [] artist.toList
  refine ⟨h, ?_⟩
  obtain ⟨x, xs, hx⟩ := List.exists_cons_of_ne_nil h
  rw [hx]
  simp [searchQueryArtist]

end SpotifyImageSearch
